import Mathlib

/-!
Verification of the response-normalization, projection and rendering
pipeline of the google-mcp server, together with its credential
resolution and error handling.

The TypeScript sources are embedded shallowly:

* JavaScript objects become structures whose optional (possibly
  `undefined`) fields are `Option`s; JSON numeric leaves are modelled as
  `Int` (every value the claims mention is integral).
* JavaScript truthiness (`""`, `0`, `undefined` are falsy; objects and
  arrays, even empty ones, are truthy) is made explicit through the
  `jsTruthy`/`jsOr...` helpers below.
* `throw` becomes `Except.error`; a handler that catches its own errors
  returns a `ToolResult` directly.
* Network calls are abstracted as explicit inputs (the provider's
  response, or an `Except` for a failed call); handlers that talk to an
  authenticated provider additionally return the number of provider
  calls they issued.
-/

/-! ## JavaScript semantics helpers -/

/-- Truthiness of an optional string: `undefined` and `""` are falsy. -/
def jsTruthy : Option String → Bool
  | none => false
  | some s => s != ""

/-- Truthiness of an optional number: `undefined` and `0` are falsy. -/
def jsTruthyNum : Option Int → Bool
  | none => false
  | some v => v != 0

/-- JavaScript `a || b` for strings (an empty string falls through). -/
def jsOrStr (a b : String) : String :=
  if a == "" then b else a

/-- JavaScript `a || b` where `a` may be `undefined` and `b` is a literal. -/
def jsOrStrOpt (a : Option String) (b : String) : String :=
  match a with
  | none => b
  | some s => jsOrStr s b

/-- JavaScript `a || b` on two possibly-`undefined` strings. -/
def jsOr2 (a b : Option String) : Option String :=
  if jsTruthy a then a else b

/-- JavaScript `a || b` on two possibly-`undefined` numbers (`0` falls through). -/
def jsOrNumOpt (a b : Option Int) : Option Int :=
  match a with
  | none => b
  | some v => if v == 0 then b else some v

/-- JavaScript `a || b` for numbers (`0` falls through). -/
def jsOrInt (a b : Int) : Int :=
  if a == 0 then b else a

/-- String interpolation of a possibly-`undefined` string. -/
def dispStr (o : Option String) : String :=
  match o with
  | some s => s
  | none => "undefined"

/-- String interpolation of a possibly-`undefined` number. -/
def dispNum (o : Option Int) : String :=
  match o with
  | some v => toString v
  | none => "undefined"

/-- JavaScript `Array.prototype.slice(0, e)`: a prefix; a negative bound
counts from the end. -/
def jsSlice (l : List α) (e : Int) : List α :=
  if 0 ≤ e then l.take e.toNat else l.take ((l.length : Int) + e).toNat

/-- Whether `pat` occurs in `s` as a substring. -/
def strContains (s pat : String) : Bool :=
  s.toList.tails.any (fun t => pat.toList.isPrefixOf t)

/-- The `.replace(/[<>]/g, "")` transformation used on address headers. -/
def stripAngles (s : String) : String :=
  String.mk (s.toList.filter (fun c => !(c == '<' || c == '>')))

/-- A tool result: a list of text content blocks (every block the server
builds has `type: "text"`, so only the text is modelled). -/
structure ToolResult where
  content : List String
deriving DecidableEq, Repr

/-! ## Finance provider: data model (src/unnamed/part_001)

The raw SerpAPI Google-Finance response, the verbosity parameters and the
filtered result, translated from `SerpApiFinanceResponse`,
`financeSearchSchema` and `FilteredFinanceResult`.
-/

/-- A `price_movement` record; `value` is absent on futures-chain items. -/
structure PriceMovement where
  percentage : Int
  value : Option Int
  movement : String
deriving DecidableEq, Repr

/-- The `market` sub-record of a summary. -/
structure SummaryMarket where
  price_movement : Option PriceMovement
deriving DecidableEq, Repr

/-- The top-level `summary` record of the raw response. -/
structure FinanceSummary where
  title : String
  stock : String
  price : String
  extracted_price : Option Int
  currency : Option String
  market : Option SummaryMarket
deriving DecidableEq, Repr

/-- One `futures_chain` entry of the raw response. -/
structure FutureItem where
  stock : String
  date : String
  price : String
  extracted_price : Option Int
  currency : String
  price_movement : Option PriceMovement
  change : Option String
deriving DecidableEq, Repr

/-- The `price_insights` record. -/
structure FinancePriceInsights where
  previous_close : Option Int
  day_range : Option String
  year_range : Option String
  market_cap : Option String
  pe_ratio : Option String
deriving DecidableEq, Repr

/-- A loosely-shaped news entry as the renderer probes it. -/
structure NewsItem where
  title : Option String
  headline : Option String
  snippet : Option String
  description : Option String
  source : Option String
  date : Option String
  published_date : Option String
  link : Option String
  url : Option String
deriving DecidableEq, Repr

/-- The dynamic shapes `top_news` may take: a plain array, an object with a
`results` array, a single news object, or some other object whose values
are probed for news entries. -/
inductive TopNewsShape where
  | list (items : List NewsItem)
  | withResults (items : List NewsItem)
  | singleNews (item : NewsItem)
  | objMap (vals : List NewsItem)
deriving DecidableEq, Repr

/-- The `markets` payload (only its `top_news` member is ever read). -/
structure Markets where
  top_news : Option TopNewsShape
deriving DecidableEq, Repr

/-- One entry of `discover_more.similar_stocks`: an object with a `stock`
field, or a bare string. -/
inductive SimilarEntry where
  | obj (stock : String)
  | str (s : String)
deriving DecidableEq, Repr

/-- The `discover_more` payload. -/
structure DiscoverMore where
  similar_stocks : Option (List SimilarEntry)
deriving DecidableEq, Repr

/-- A Brave news result (`BraveNewsResult`); `source` holds the `name`
of the nested source object. -/
structure BraveNewsResult where
  title : String
  url : String
  description : String
  published_datetime : Option String
  source : Option String
deriving DecidableEq, Repr

/-- The raw SerpAPI finance response (`SerpApiFinanceResponse`).  The
`search_metadata`/`search_parameters` members are copied verbatim and
never inspected, so they are carried as uninterpreted payload strings. -/
structure FinanceData where
  search_metadata : Option String
  search_parameters : Option String
  summary : Option FinanceSummary
  futures_chain : Option (List FutureItem)
  top_news : Option TopNewsShape
  markets : Option Markets
  discover_more : Option DiscoverMore
  price_insights : Option FinancePriceInsights
  error : Option String
deriving DecidableEq, Repr

/-- The validated finance search parameters (`financeSearchSchema`),
after zod applied the defaults. -/
structure FinanceParams where
  q : String
  window : Option String
  async : Option Bool
  include_markets : Bool
  include_discover : Bool
  include_news : Bool
  max_futures : Int
  summary_only : Bool
  max_news : Int
deriving DecidableEq, Repr

/-- The normalized primary record of a filtered finance result
(the `summary` member of `FilteredFinanceResult`). -/
structure StockData where
  symbol : String
  name : String
  price : Option Int
  currency : String
  price_movement : Option PriceMovement
deriving DecidableEq, Repr

/-- The filtered finance result (`FilteredFinanceResult`); absent members
of the returned object are `none`. -/
structure FilteredFinanceResult where
  search_metadata : Option String := none
  search_parameters : Option String := none
  summary : Option StockData := none
  markets : Option Markets := none
  futures_chain : Option (List FutureItem) := none
  discover_more : Option DiscoverMore := none
  top_news : Option TopNewsShape := none
  price_insights : Option FinancePriceInsights := none
deriving DecidableEq, Repr

/-- The `.replace(/[0-9.,]/g, "")` used to strip the magnitude out of a
textual price when no separate currency field is present. -/
def stripPriceChars (s : String) : String :=
  String.mk (s.toList.filter (fun c => !(c.isDigit || c == '.' || c == ',')))

/-- The primary record a summary supplies (the `data.summary` branch of
`filterFinanceResponse`). -/
def stockDataOfSummary (s : FinanceSummary) : StockData :=
  { symbol := s.stock
    name := s.title
    price := s.extracted_price
    currency := jsOrStrOpt s.currency (stripPriceChars s.price)
    price_movement := s.market.bind SummaryMarket.price_movement }

/-- The primary record the first futures-chain entry supplies (the
`futures_chain[0]` branch of `filterFinanceResponse`). -/
def stockDataOfFuture (f : FutureItem) : StockData :=
  { symbol := f.stock
    name := f.date
    price := f.extracted_price
    currency := f.currency
    price_movement := f.price_movement }

/-- `filterFinanceResponse` from src/unnamed/part_001 (lines 351-423): in
summary mode the primary record comes from `summary` first, else from
`futures_chain[0]`, else the call throws; in detailed mode the sections
are copied subject to the include flags and `max_futures` truncation. -/
def filterFinanceResponse (data : FinanceData) (params : FinanceParams) :
    Except String FilteredFinanceResult :=
  if params.summary_only then
    match data.summary with
    | some s =>
        .ok { search_metadata := data.search_metadata
              search_parameters := data.search_parameters
              summary := some (stockDataOfSummary s)
              top_news :=
                if params.include_news then data.markets.bind Markets.top_news else none
              price_insights := data.price_insights }
    | none =>
        match data.futures_chain with
        | some (f :: _) =>
            .ok { search_metadata := data.search_metadata
                  search_parameters := data.search_parameters
                  summary := some (stockDataOfFuture f)
                  top_news :=
                    if params.include_news then data.markets.bind Markets.top_news else none
                  price_insights := data.price_insights }
        | _ => .error "No stock data found in API response"
  else
    .ok { search_metadata := data.search_metadata
          search_parameters := data.search_parameters
          markets := if params.include_markets then data.markets else none
          futures_chain :=
            match data.futures_chain with
            | some fc =>
                if 0 < params.max_futures then some (jsSlice fc params.max_futures) else none
            | none => none
          discover_more := if params.include_discover then data.discover_more else none
          top_news :=
            if params.include_news then data.markets.bind Markets.top_news else none
          price_insights := data.price_insights }

/-! ## Finance provider: markdown renderer (src/unnamed/part_001, lines 121-283)

`formatFinanceToMarkdown` appends one section after another to the
document; each section is given its own definition here so that section
presence can be stated precisely, and the top-level definition is their
concatenation in source order. -/

/-- Whether a news entry carries a headline
(`news.title || news.headline || news.snippet`). -/
def hasHeadlineInfo (n : NewsItem) : Bool :=
  jsTruthy n.title || jsTruthy n.headline || jsTruthy n.snippet

/-- The news entries extracted from a `top_news` value, by its shape:
a plain array is used as is, a `results` member is used as is, a single
news object becomes a one-entry list, and any other object contributes
those of its values that look like news entries (the `singleNews` object
without headline information falls into the `Object.values` probe, whose
values are primitive strings and are all filtered out). -/
def topNewsItems : TopNewsShape → List NewsItem
  | .list items => items
  | .withResults items => items
  | .singleNews n => if hasHeadlineInfo n then [n] else []
  | .objMap vals => vals.filter hasHeadlineInfo

/-- The arrow rendered for a price-movement direction. -/
def movementArrow (m : String) : String :=
  if m == "up" then "📈" else if m == "down" then "📉" else "➡️"

/-- The `Change:` line of the summary section.  An absent `value` compares
as not-greater-or-equal and interpolates as `undefined`, exactly as in
JavaScript. -/
def movementLine (m : PriceMovement) : String :=
  "Change: " ++ movementArrow m.movement ++ " " ++ toString m.percentage ++ "% ("
    ++ (match m.value with
        | some v => (if 0 ≤ v then "+" else "") ++ toString v
        | none => "undefined")
    ++ ")  \n"

/-- The `Current Price:` line: a missing price renders as `N/A`, a missing
currency as `$`. -/
def currentPriceLine (s : StockData) : String :=
  "Current Price: " ++ jsOrStr s.currency "$"
    ++ (match s.price with | some v => toString v | none => "N/A") ++ "  \n"

/-- The main stock/security section of the finance document. -/
def summarySection (d : FilteredFinanceResult) : String :=
  match d.summary with
  | none => ""
  | some s =>
      currentPriceLine s
      ++ (match s.price_movement with | some m => movementLine m | none => "")
      ++ (if s.name != "" && s.name != s.symbol then "Name: " ++ s.name ++ "  \n" else "")
      ++ "\n"

/-- The rows of the `## Price Analysis` section; each row is emitted only
when its field is truthy. -/
def priceInsightsRows (ins : FinancePriceInsights) : String :=
  (if jsTruthyNum ins.previous_close then
      "Previous Close: $" ++ dispNum ins.previous_close ++ "  \n" else "")
    ++ ((if jsTruthy ins.day_range then
      "Day Range: $" ++ dispStr ins.day_range ++ "  \n" else "")
    ++ ((if jsTruthy ins.year_range then
      "52-Week Range: $" ++ dispStr ins.year_range ++ "  \n" else "")
    ++ ((if jsTruthy ins.market_cap then
      "Market Cap: " ++ dispStr ins.market_cap ++ "  \n" else "")
    ++ ((if jsTruthy ins.pe_ratio then
      "P/E Ratio: " ++ dispStr ins.pe_ratio ++ "  \n" else "")
    ++ "\n"))))

/-- The `## Price Analysis` section. -/
def priceInsightsSection (d : FilteredFinanceResult) : String :=
  match d.price_insights with
  | none => ""
  | some ins => "## Price Analysis\n\n" ++ priceInsightsRows ins

/-- One futures-contract row (`${future.date || future.stock}: $...`). -/
def futureLine (f : FutureItem) : String :=
  jsOrStr f.date f.stock ++ ": $"
    ++ (if f.price != "" then f.price else dispNum f.extracted_price)
    ++ (match f.change with
        | some c => if c != "" then " (" ++ c ++ ")" else ""
        | none => "")
    ++ "  \n"

/-- The rows of the `## Futures Contracts` section. -/
def futuresRows (futures : List FutureItem) : String :=
  String.join (futures.map futureLine) ++ "\n"

/-- The `## Futures Contracts` section: shown only in summary mode, for a
non-empty futures chain, and only when more than one item survives the
`slice(0, max_futures || 3)` truncation. -/
def futuresSection (d : FilteredFinanceResult) (p : FinanceParams) : String :=
  match d.futures_chain with
  | none => ""
  | some fc =>
      if p.summary_only then
        if 0 < fc.length then
          let futures := jsSlice fc (jsOrInt p.max_futures 3)
          if 1 < futures.length then
            "## Futures Contracts\n\n" ++ futuresRows futures
          else ""
        else ""
      else ""

/-- One rendered Google-Finance news entry; an entry without headline
information is skipped (its index is still consumed). -/
def newsItemBlock (idx : Nat) (n : NewsItem) : String :=
  if hasHeadlineInfo n then
    "### " ++ toString (idx + 1) ++ ". "
      ++ jsOrStrOpt n.title (jsOrStrOpt n.headline "News Update") ++ "\n"
      ++ (if jsTruthy n.source then "Source: " ++ dispStr n.source ++ "  \n" else "")
      ++ (if jsTruthy (jsOr2 n.date n.published_date) then
            "Date: " ++ dispStr (jsOr2 n.date n.published_date) ++ "  \n" else "")
      ++ (if jsTruthy (jsOr2 n.snippet n.description) then
            dispStr (jsOr2 n.snippet n.description) ++ "  \n" else "")
      ++ (if jsTruthy (jsOr2 n.link n.url) then
            "[Read More](" ++ dispStr (jsOr2 n.link n.url) ++ ")  \n" else "")
      ++ "\n"
  else ""

/-- The `## Latest News` section over the first five extracted entries.
The surrounding try/catch never fires in this total model. -/
def newsSection (d : FilteredFinanceResult) (p : FinanceParams) : String :=
  match d.top_news with
  | none => ""
  | some tn =>
      if p.include_news then
        let items := topNewsItems tn
        if 0 < items.length then
          "## Latest News\n\n"
            ++ String.join ((items.take 5).enum.map (fun e => newsItemBlock e.1 e.2))
        else ""
      else ""

/-- The number of own keys of a news object (`Object.keys(...).length`). -/
def newsItemKeyCount (n : NewsItem) : Nat :=
  [n.title.isSome, n.headline.isSome, n.snippet.isSome, n.description.isSome,
   n.source.isSome, n.date.isSome, n.published_date.isSome, n.link.isSome,
   n.url.isSome].count true

/-- The number of own keys of a `top_news` value. -/
def topNewsKeys : TopNewsShape → Nat
  | .list items => items.length
  | .withResults _ => 1
  | .singleNews n => newsItemKeyCount n
  | .objMap vals => vals.length

/-- Whether the Brave-news part must open its own `## Latest News` header
(`!data.top_news || Object.keys(data.top_news || \x7b\x7d).length === 0`). -/
def braveHeaderNeeded (t : Option TopNewsShape) : Bool :=
  match t with
  | none => true
  | some tn => topNewsKeys tn == 0

/-- One rendered Brave-search news entry. -/
def braveNewsBlock (offset idx : Nat) (n : BraveNewsResult) : String :=
  "### " ++ toString (idx + offset) ++ ". " ++ n.title ++ "\n"
    ++ (if jsTruthy n.source then "Source: " ++ dispStr n.source ++ "  \n" else "")
    ++ (if jsTruthy n.published_datetime then
          "Date: " ++ dispStr n.published_datetime ++ "  \n" else "")
    ++ (if n.description != "" then n.description ++ "  \n" else "")
    ++ (if n.url != "" then "[Read More](" ++ n.url ++ ")  \n" else "")
    ++ "\n"

/-- The additional-news section fed by Brave Search; its entries start at
index 2 when Google-Finance news is present. -/
def braveSection (d : FilteredFinanceResult) (p : FinanceParams)
    (braveNews : List BraveNewsResult) : String :=
  if braveNews.length != 0 && p.include_news then
    (if braveHeaderNeeded d.top_news then "## Latest News\n\n" else "")
      ++ String.join (braveNews.enum.map
          (fun e => braveNewsBlock (if d.top_news.isSome then 2 else 1) e.1 e.2))
  else ""

/-- The `.length` of a `top_news` value as interpolated by the market
overview (only a plain array has one). -/
def topNewsLengthDisp : TopNewsShape → String
  | .list items => toString items.length
  | _ => "undefined"

/-- The `## Market Overview` section. -/
def marketsSection (d : FilteredFinanceResult) (p : FinanceParams) : String :=
  match d.markets with
  | none => ""
  | some m =>
      if p.include_markets then
        "## Market Overview\n\n"
          ++ (match m.top_news with
              | some tn => "Market News Available: " ++ topNewsLengthDisp tn
                  ++ " articles  \n"
              | none => "")
          ++ "\n"
      else ""

/-- How one `similar_stocks` entry interpolates (`s.stock || s`): an
object with a falsy `stock` falls back to the object itself, which
interpolates as `[object Object]`. -/
def similarDisp : SimilarEntry → String
  | .obj st => if st == "" then "[object Object]" else st
  | .str s => s

/-- The `## Related` section. -/
def discoverSection (d : FilteredFinanceResult) (p : FinanceParams) : String :=
  match d.discover_more with
  | none => ""
  | some dm =>
      if p.include_discover then
        "## Related\n\n"
          ++ (match dm.similar_stocks with
              | some ss => "Similar Stocks: "
                  ++ String.intercalate ", " (ss.map similarDisp) ++ "  \n"
              | none => "")
          ++ "\n"
      else ""

/-- `formatFinanceToMarkdown` from src/unnamed/part_001: the title line
followed by every section in source order. -/
def formatFinanceToMarkdown (data : Option FilteredFinanceResult)
    (p : FinanceParams) (braveNews : List BraveNewsResult) : String :=
  match data with
  | none => "No financial data available."
  | some d =>
      "# " ++ p.q ++ "\n\n"
        ++ summarySection d
        ++ priceInsightsSection d
        ++ futuresSection d p
        ++ newsSection d p
        ++ braveSection d p braveNews
        ++ marketsSection d p
        ++ discoverSection d p

/-! ## Flight provider: data model

The raw SerpAPI Google-Flights response is untyped in the source; the
fields the filter and the renderer probe are modelled explicitly. -/

/-- A segment's `departure_airport`/`arrival_airport`: either an object
with `code`/`name`/`time` members or a bare string. -/
inductive AirportValue where
  | objA (code name time : Option String)
  | strA (s : String)
deriving DecidableEq, Repr

/-- `airport?.code || airport?.name || airport || 'Unknown'`: an object
whose `code` and `name` are falsy interpolates as `[object Object]`. -/
def airportDisp : Option AirportValue → String
  | none => "Unknown"
  | some (.objA code name _) =>
      if jsTruthy code then dispStr code
      else if jsTruthy name then dispStr name
      else "[object Object]"
  | some (.strA s) => if s != "" then s else "Unknown"

/-- `airport?.time || 'Unknown'`. -/
def airportTimeDisp : Option AirportValue → String
  | some (.objA _ _ time) => if jsTruthy time then dispStr time else "Unknown"
  | _ => "Unknown"

/-- One flight segment as both the filter and the renderer read it. -/
structure FlightSegment where
  departure_airport : Option AirportValue
  arrival_airport : Option AirportValue
  duration : Option Int
  airline : Option String
  flight_number : Option String
  travel_class : Option String
  overnight : Option Bool
  often_delayed_by_over_30_min : Option Bool
deriving DecidableEq, Repr

/-- One layover entry. -/
structure FlightLayover where
  name : Option String
  duration : Option Int
deriving DecidableEq, Repr

/-- The `carbon_emissions` record. -/
structure CarbonEmissions where
  this_flight : Option Int
deriving DecidableEq, Repr

/-- One itinerary of `best_flights`/`other_flights`. -/
structure FlightOption where
  flights : Option (List FlightSegment)
  layovers : Option (List FlightLayover)
  total_duration : Option Int
  price : Option Int
  type : Option String
  airline_logo : Option String
  carbon_emissions : Option CarbonEmissions
deriving DecidableEq, Repr

/-- The `price_insights` record of a flight response. -/
structure FlightPriceInsights where
  lowest_price : Option Int
  price_level : Option String
  typical_price_range : Option (List Int)
deriving DecidableEq, Repr

/-- The `search_metadata` of a flight response (only
`google_flights_url` is ever read). -/
structure FlightSearchMetadata where
  google_flights_url : Option String
deriving DecidableEq, Repr

/-- The raw Google-Flights response.  The `airports` payload is copied
verbatim and never inspected, so it is carried as an uninterpreted
string. -/
structure FlightData where
  search_metadata : Option FlightSearchMetadata
  search_parameters : Option String
  best_flights : Option (List FlightOption)
  other_flights : Option (List FlightOption)
  price_insights : Option FlightPriceInsights
  airports : Option String
deriving DecidableEq, Repr

/-- The validated flight search parameters (`airportsSearchSchema`),
after zod applied the defaults. -/
structure FlightParams where
  departure_id : String
  arrival_id : String
  outbound_date : Option String
  return_date : Option String
  multi_city_json : Option String
  type : Option Int
  max_best_flights : Int
  max_other_flights : Int
  include_price_insights : Bool
  include_airports : Bool
  summary_only : Bool
  include_links : Bool
deriving DecidableEq, Repr

/-- The `summary` member of a filtered flight result. -/
structure FlightSummaryBlock where
  route : String
  best_price : Option Int
  best_airline : Option String
  flight_count : Nat
deriving DecidableEq, Repr

/-- The filtered flight result (`FilteredFlightResult`); absent members
of the returned object are `none`. -/
structure FilteredFlightResult where
  search_metadata : Option FlightSearchMetadata := none
  search_parameters : Option String := none
  summary : Option FlightSummaryBlock := none
  best_flights : Option (List FlightOption) := none
  other_flights : Option (List FlightOption) := none
  price_insights : Option FlightPriceInsights := none
  airports : Option String := none
deriving DecidableEq, Repr

/-! ## Flight provider: projection (src/src/calendar.ts, lines 716-812) -/

/-- The per-segment field copy of the detailed projection. -/
def projFlightSegment (f : FlightSegment) : FlightSegment :=
  { departure_airport := f.departure_airport
    arrival_airport := f.arrival_airport
    duration := f.duration
    airline := f.airline
    flight_number := f.flight_number
    travel_class := f.travel_class
    overnight := f.overnight
    often_delayed_by_over_30_min := f.often_delayed_by_over_30_min }

/-- The per-itinerary field copy for `best_flights` (no `layovers`, no
`airline_logo`). -/
def projBestFlight (fl : FlightOption) : FlightOption :=
  { flights := fl.flights.map (List.map projFlightSegment)
    layovers := none
    total_duration := fl.total_duration
    price := fl.price
    type := fl.type
    airline_logo := none
    carbon_emissions := fl.carbon_emissions }

/-- The per-itinerary field copy for `other_flights` (keeps `layovers`). -/
def projOtherFlight (fl : FlightOption) : FlightOption :=
  { flights := fl.flights.map (List.map projFlightSegment)
    layovers := fl.layovers
    total_duration := fl.total_duration
    price := fl.price
    type := fl.type
    airline_logo := none
    carbon_emissions := fl.carbon_emissions }

/-- The `price_insights` field copy of both projection modes. -/
def projPriceInsights (pi : FlightPriceInsights) : FlightPriceInsights :=
  { lowest_price := pi.lowest_price
    price_level := pi.price_level
    typical_price_range := pi.typical_price_range }

/-- `filterFlightResponse`: summary mode builds the compact summary block
(best price from `best_flights[0].price || price_insights.lowest_price`);
detailed mode truncates and field-maps the itinerary lists. -/
def filterFlightResponse (data : FlightData) (params : FlightParams) :
    FilteredFlightResult :=
  if params.summary_only then
    let bestFlight := data.best_flights.bind List.head?
    { search_metadata := data.search_metadata
      search_parameters := data.search_parameters
      summary := some
        { route := params.departure_id ++ " → " ++ params.arrival_id
          best_price := jsOrNumOpt (bestFlight.bind FlightOption.price)
              (data.price_insights.bind FlightPriceInsights.lowest_price)
          best_airline :=
            ((bestFlight.bind FlightOption.flights).bind List.head?).bind
              FlightSegment.airline
          flight_count := (data.best_flights.map List.length).getD 0
              + (data.other_flights.map List.length).getD 0 }
      price_insights :=
        if params.include_price_insights then
          data.price_insights.map projPriceInsights
        else none }
  else
    { search_metadata := data.search_metadata
      search_parameters := data.search_parameters
      best_flights :=
        match data.best_flights with
        | some l =>
            if 0 < params.max_best_flights then
              some ((jsSlice l params.max_best_flights).map projBestFlight)
            else none
        | none => none
      other_flights :=
        match data.other_flights with
        | some l =>
            if 0 < params.max_other_flights then
              some ((jsSlice l params.max_other_flights).map projOtherFlight)
            else none
        | none => none
      price_insights :=
        if params.include_price_insights then
          data.price_insights.map projPriceInsights
        else none
      airports := if params.include_airports then data.airports else none }

/-! ## Flight provider: markdown renderer (src/src/calendar.ts, lines 932-1033) -/

/-- `padStart(2, '0')`. -/
def padStart2 (s : String) : String :=
  if s.length == 0 then "00" else if s.length == 1 then "0" ++ s else s

/-- `formatDuration`: minutes to `h:mm`; an absent value (NaN after
`parseInt`) renders as `Unknown`.  `Math.floor` is flooring division and
`%` is truncating remainder, exactly as in JavaScript. -/
def formatDuration (minutes : Option Int) : String :=
  match minutes with
  | none => "Unknown"
  | some m => toString (Int.fdiv m 60) ++ ":" ++ padStart2 (toString (Int.tmod m 60))

/-- The stop count of an itinerary (`'Direct'` for one segment or none). -/
def stopsDisp (fl : FlightOption) : String :=
  match fl.flights with
  | some segs =>
      if 1 < segs.length then
        toString (segs.length - 1) ++ " stop" ++ (if 2 < segs.length then "s" else "")
      else "Direct"
  | none => "Direct"

/-- One rendered segment row. -/
def segmentLine (seg : FlightSegment) : String :=
  dispStr seg.airline ++ " " ++ dispStr seg.flight_number ++ ": "
    ++ airportDisp seg.departure_airport ++ " " ++ airportTimeDisp seg.departure_airport
    ++ " → " ++ airportDisp seg.arrival_airport ++ " "
    ++ airportTimeDisp seg.arrival_airport ++ "\n"

/-- The segment rows of one itinerary, with a layover row after every
segment but the last when the matching layover entry exists. -/
def segmentLines (segs : List FlightSegment) (layovers : Option (List FlightLayover)) :
    String :=
  String.join (segs.enum.map (fun e =>
    segmentLine e.2
      ++ (if e.1 + 1 < segs.length then
            match layovers.bind (fun ls => ls[e.1]?) with
            | some l => "  Layover: " ++ formatDuration l.duration ++ "\n"
            | none => ""
          else "")))

/-- One rendered itinerary block of the detailed view. -/
def flightOptionBlock (url : Option String) (p : FlightParams) (fl : FlightOption) :
    String :=
  "### $" ++ dispNum fl.price ++ " • " ++ formatDuration fl.total_duration
    ++ " • " ++ stopsDisp fl ++ "\n"
    ++ (if p.include_links && jsTruthy url then "**URL**: " ++ dispStr url ++ "\n" else "")
    ++ (match fl.flights with
        | some segs => if 0 < segs.length then segmentLines segs fl.layovers else ""
        | none => "")
    ++ "\n"

/-- The headline `**Best Price**` line of the summary view. -/
def bestPriceLine (bp : Option Int) : String :=
  "**Best Price**: $" ++ dispNum bp ++ "\n"

/-- The summary view body after its headline price line: the airline of
the first best flight when truthy, the flight count, and the compact
price insights. -/
def flightSummaryTail (d : FlightData) (p : FlightParams) : String :=
  let bestFlight := d.best_flights.bind List.head?
  let airline := ((bestFlight.bind FlightOption.flights).bind List.head?).bind
      FlightSegment.airline
  let flightCount := (d.best_flights.map List.length).getD 0
      + (d.other_flights.map List.length).getD 0
  (if jsTruthy airline then "**Airline**: " ++ dispStr airline ++ "\n" else "")
    ++ ("**Flights Found**: " ++ toString flightCount ++ "\n\n"
    ++ (if p.include_price_insights then
          match d.price_insights with
          | some pi =>
              "**Price Level**: " ++ dispStr pi.price_level ++ "\n"
                ++ (match pi.typical_price_range with
                    | some r => "**Typical Range**: $"
                        ++ String.intercalate "-$" (r.map toString) ++ "\n"
                    | none => "")
          | none => ""
        else ""))

/-- The whole summary view body: the headline price comes from
`best_flights[0].price || price_insights.lowest_price`. -/
def flightSummaryBody (d : FlightData) (p : FlightParams) : String :=
  let bestFlight := d.best_flights.bind List.head?
  let bestPrice := jsOrNumOpt (bestFlight.bind FlightOption.price)
      (d.price_insights.bind FlightPriceInsights.lowest_price)
  bestPriceLine bestPrice ++ flightSummaryTail d p

/-- The `## Best Options` section of the detailed view. -/
def flightBestSection (d : FlightData) (p : FlightParams) : String :=
  match d.best_flights with
  | some l =>
      if 0 < p.max_best_flights then
        "## Best Options\n\n"
          ++ String.join ((jsSlice l p.max_best_flights).map
              (flightOptionBlock (d.search_metadata.bind
                FlightSearchMetadata.google_flights_url) p))
      else ""
  | none => ""

/-- The `## Other Options` section of the detailed view. -/
def flightOtherSection (d : FlightData) (p : FlightParams) : String :=
  match d.other_flights with
  | some l =>
      if 0 < p.max_other_flights then
        "## Other Options\n\n"
          ++ String.join ((jsSlice l p.max_other_flights).map
              (flightOptionBlock (d.search_metadata.bind
                FlightSearchMetadata.google_flights_url) p))
      else ""
  | none => ""

/-- The closing price-insights line of the detailed view. -/
def flightDetailInsights (d : FlightData) (p : FlightParams) : String :=
  if p.include_price_insights && !p.summary_only then
    match d.price_insights with
    | some pi => "**Price Level**: " ++ dispStr pi.price_level
        ++ " • Lowest: $" ++ dispNum pi.lowest_price ++ "\n"
    | none => ""
  else ""

/-- The title line of the flight document. -/
def flightTitle (p : FlightParams) : String :=
  "# " ++ p.departure_id ++ " → " ++ p.arrival_id ++ "\n\n"

/-- `formatFlightToMarkdown`: the title, then either the summary body or
the detailed sections. -/
def formatFlightToMarkdown (data : Option FlightData) (p : FlightParams) : String :=
  match data with
  | none => "No flight data available."
  | some d =>
      flightTitle p
        ++ (if p.summary_only then flightSummaryBody d p
            else flightBestSection d p ++ flightOtherSection d p
              ++ flightDetailInsights d p)

/-- `searchAirports`: a missing `SERP_API_KEY` throws before the provider
call; a failed call is wrapped; a successful one is rendered. -/
def searchAirports (serpApiKey : Option String) (p : FlightParams)
    (call : Except String FlightData) : Except String String :=
  if !(jsTruthy serpApiKey) then
    .error "SERP_API_KEY environment variable is required"
  else
    match call with
    | .error e => .error ("Airports API request failed: " ++ e)
    | .ok d => .ok (formatFlightToMarkdown (some d) p)

/-- `searchFinance` (src/unnamed/part_001, lines 425-481): a missing
`SERP_API_KEY` throws before the provider call; a provider-reported
error and the filter's no-data error are rethrown; otherwise the filtered
result is rendered together with the Brave news fetched when
`max_news > 1`. -/
def searchFinance (serpApiKey : Option String) (p : FinanceParams)
    (call : Except String FinanceData) (braveResults : List BraveNewsResult) :
    Except String String :=
  if !(jsTruthy serpApiKey) then
    .error "SERP_API_KEY environment variable is required"
  else
    match call with
    | .error e => .error ("Finance API request failed: " ++ e)
    | .ok data =>
        if jsTruthy data.error then
          .error ("SerpAPI Error: " ++ data.error.getD "")
        else
          match filterFinanceResponse data p with
          | .error e => .error e
          | .ok filtered =>
              let braveNews :=
                if 1 < p.max_news then
                  if p.include_news then braveResults else []
                else []
              .ok (formatFinanceToMarkdown (some filtered) p braveNews)

/-! ## Geospatial provider (src/src/maps.ts, lines 46-106)

The `geocode` handler: the missing-key check throws outside the try
block (modelled as `Except.error`), every failure inside the try block is
converted into an error text block. -/

/-- The environment of the geospatial tools. -/
structure MapsEnv where
  googleMapsApiKey : Option String
deriving DecidableEq, Repr

/-- A geographic coordinate pair. -/
structure GeoLocation where
  lat : Int
  lng : Int
deriving DecidableEq, Repr

/-- The `geometry` member of a geocoding result. -/
structure Geometry where
  location : GeoLocation
deriving DecidableEq, Repr

/-- One geocoding result. -/
structure GeocodeResult where
  formatted_address : String
  geometry : Geometry
  place_id : String
  types : List String
deriving DecidableEq, Repr

/-- A geocoding response. -/
structure GeocodeResponse where
  results : List GeocodeResult
deriving DecidableEq, Repr

/-- The geocode tool's parameters. -/
structure GeocodeParams where
  address : String
deriving DecidableEq, Repr

/-- `JSON.stringify` of a string array at nesting depth one with
two-space indentation (for strings that need no escaping). -/
def jsonStringList (ts : List String) : String :=
  if ts.isEmpty then "[]"
  else "[\n" ++ String.intercalate ",\n" (ts.map (fun t => "    \"" ++ t ++ "\"")) ++ "\n  ]"

/-- The success text of `geocode`: `JSON.stringify` of the projected
first result with two-space indentation. -/
def geocodeResultText (r : GeocodeResult) : String :=
  "\x7b\n  \"formatted_address\": \"" ++ r.formatted_address
    ++ "\",\n  \"latitude\": " ++ toString r.geometry.location.lat
    ++ ",\n  \"longitude\": " ++ toString r.geometry.location.lng
    ++ ",\n  \"place_id\": \"" ++ r.place_id
    ++ "\",\n  \"types\": " ++ jsonStringList r.types ++ "\n\x7d"

/-- The `geocode` handler over an abstracted provider call. -/
def geocode (env : MapsEnv) (params : GeocodeParams)
    (call : Except String GeocodeResponse) : Except String ToolResult :=
  if !(jsTruthy env.googleMapsApiKey) then
    .error "GOOGLE_MAPS_API_KEY is required"
  else
    match call with
    | .error e => .ok { content := ["Error geocoding address: " ++ e] }
    | .ok resp =>
        match resp.results with
        | [] => .ok { content := ["No results found for the given address."] }
        | r :: _ => .ok { content := [geocodeResultText r] }

/-! ## OAuth credential resolution (src/unnamed/part_002, lines 301-332 and
src/src/calendar.ts, lines 157-188) -/

/-- The OAuth environment variables shared by the mailbox and calendar
providers. -/
structure OAuthEnv where
  clientId : Option String
  clientSecret : Option String
  redirectUri : Option String
  accessToken : Option String
  refreshToken : Option String
deriving DecidableEq, Repr

/-- A configured OAuth2 client with its credentials attached. -/
structure OAuthClient where
  clientId : String
  clientSecret : String
  redirectUri : String
  accessToken : String
  refreshToken : String
deriving DecidableEq, Repr

/-- `createGmailAuth`: throws when the client id or secret is falsy, then
when the access or refresh token is falsy; the redirect URI has a fixed
default. -/
def createGmailAuth (env : OAuthEnv) : Except String OAuthClient :=
  if !(jsTruthy env.clientId) || !(jsTruthy env.clientSecret) then
    .error "GOOGLE_CLIENT_ID and GOOGLE_CLIENT_SECRET are required. Run oauth-setup.js to configure."
  else if !(jsTruthy env.accessToken) || !(jsTruthy env.refreshToken) then
    .error "OAuth2 tokens missing. Run oauth-setup.js to get tokens."
  else
    .ok { clientId := env.clientId.getD ""
          clientSecret := env.clientSecret.getD ""
          redirectUri := jsOrStrOpt env.redirectUri "http://localhost:3000/oauth2callback"
          accessToken := env.accessToken.getD ""
          refreshToken := env.refreshToken.getD "" }

/-- `createCalendarAuth`: identical to `createGmailAuth` (the calendar
module carries its own copy of the helper). -/
def createCalendarAuth (env : OAuthEnv) : Except String OAuthClient :=
  if !(jsTruthy env.clientId) || !(jsTruthy env.clientSecret) then
    .error "GOOGLE_CLIENT_ID and GOOGLE_CLIENT_SECRET are required. Run oauth-setup.js to configure."
  else if !(jsTruthy env.accessToken) || !(jsTruthy env.refreshToken) then
    .error "OAuth2 tokens missing. Run oauth-setup.js to get tokens."
  else
    .ok { clientId := env.clientId.getD ""
          clientSecret := env.clientSecret.getD ""
          redirectUri := jsOrStrOpt env.redirectUri "http://localhost:3000/oauth2callback"
          accessToken := env.accessToken.getD ""
          refreshToken := env.refreshToken.getD "" }

/-! ## Mailbox provider (src/unnamed/part_002)

Handlers return a `ToolResult` together with the number of provider
calls they issued; credential failure is caught inside the handler's try
block, so it yields an error text block and a call count of zero. -/

/-- A message header. -/
structure Header where
  name : Option String
  value : Option String
deriving DecidableEq, Repr

/-- The case-insensitive header lookup
(`headers.find(...)?.value || ""`). -/
def getHeader (hs : List Header) (n : String) : String :=
  match hs.find? (fun h =>
      match h.name with
      | some nm => nm.toLower == n.toLower
      | none => false) with
  | some h => h.value.getD ""
  | none => ""

/-- One entry of the message list. -/
structure GmailMsgRef where
  id : Option String
  threadId : Option String
deriving DecidableEq, Repr

/-- The payload of a metadata-format message. -/
structure MsgPayloadMeta where
  headers : Option (List Header)
deriving DecidableEq, Repr

/-- A metadata-format message detail. -/
structure MsgMeta where
  payload : Option MsgPayloadMeta
  snippet : Option String
  labelIds : Option (List String)
deriving DecidableEq, Repr

/-- The record `readEmails` builds per message.  `from` is a Lean keyword,
so the field is named `fromAddr`. -/
structure EmailSummary where
  id : Option String
  threadId : Option String
  fromAddr : String
  toAddr : String
  subject : String
  date : String
  snippet : Option String
  labelIds : Option (List String)
deriving DecidableEq, Repr

/-- A body part: its `data` is the base64 payload, modelled as the
decoded text. -/
structure BodyData where
  data : Option String
deriving DecidableEq, Repr

/-- One part of a multipart message. -/
structure MsgPart where
  mimeType : Option String
  body : Option BodyData
deriving DecidableEq, Repr

/-- The payload of a full-format message. -/
structure FullPayload where
  headers : Option (List Header)
  body : Option BodyData
  parts : Option (List MsgPart)
deriving DecidableEq, Repr

/-- A full-format message. -/
structure FullMessage where
  id : Option String
  threadId : Option String
  payload : Option FullPayload
  snippet : Option String
  labelIds : Option (List String)
deriving DecidableEq, Repr

/-- A `users.messages.send` response. -/
structure SendResponse where
  id : Option String
  threadId : Option String
deriving DecidableEq, Repr

/-- The mailbox provider boundary: the outcomes of the network calls a
handler may issue, and the locale-dependent date rendering
(`new Date(x).toLocaleDateString()`) as an explicit conversion. -/
structure GmailNet where
  sendResult : Except String SendResponse
  listResult : Except String (Option (List GmailMsgRef))
  getMeta : String → Except String MsgMeta
  getFull : Except String FullMessage
  localeDate : String → String

/-- The send tool's parameters. -/
structure SendEmailParams where
  toAddr : String
  subject : String
  body : String
  cc : Option String
  bcc : Option String
deriving DecidableEq, Repr

/-- The list tool's parameters (`maxResults` is schema-bounded to
1..100). -/
structure ReadEmailsParams where
  query : Option String
  maxResults : Nat
  labelIds : Option (List String)
deriving DecidableEq, Repr

/-- The get tool's parameters. -/
structure GetEmailParams where
  messageId : String
deriving DecidableEq, Repr

/-- The raw RFC-822 lines `sendEmail` assembles before base64url
encoding. -/
def buildEmailLines (p : SendEmailParams) : List String :=
  ["To: " ++ p.toAddr]
    ++ (if jsTruthy p.cc then ["Cc: " ++ dispStr p.cc] else [])
    ++ (if jsTruthy p.bcc then ["Bcc: " ++ dispStr p.bcc] else [])
    ++ ["Subject: " ++ p.subject, "", p.body]

/-- `sendEmail`: credential failure yields an error text block before any
provider call. -/
def sendEmail (env : OAuthEnv) (p : SendEmailParams) (net : GmailNet) :
    ToolResult × Nat :=
  match createGmailAuth env with
  | .error e => ({ content := ["Error sending email: " ++ e] }, 0)
  | .ok _ =>
      match net.sendResult with
      | .error e => ({ content := ["Error sending email: " ++ e] }, 1)
      | .ok r =>
          ({ content := ["# Email Sent Successfully ✅\n\nMessage ID: `"
              ++ dispStr r.id ++ "`  \nThread ID: `" ++ dispStr r.threadId
              ++ "`  \nTo: " ++ p.toAddr ++ "  \nSubject: " ++ p.subject] }, 1)

/-- The inbox listing renderer (`formatEmailListToMarkdown`). -/
def formatEmailListToMarkdown (localeDate : String → String)
    (emails : List EmailSummary) : String :=
  if emails.isEmpty then "No emails found."
  else
    "# Inbox (" ++ toString emails.length ++ " emails)\n\n"
      ++ String.join (emails.enum.map (fun e =>
          "## " ++ toString (e.1 + 1) ++ ". " ++ jsOrStr e.2.subject "(No Subject)" ++ "\n"
            ++ "From: " ++ stripAngles e.2.fromAddr ++ "  \n"
            ++ "Date: " ++ localeDate e.2.date ++ "  \n"
            ++ "ID: `" ++ dispStr e.2.id ++ "`\n\n"
            ++ (if jsTruthy e.2.snippet then dispStr e.2.snippet ++ "\n\n" else "")
            ++ "---\n\n"))

/-- `readEmails`: one list call, then one detail call per listed message
(issued as one awaited batch); an absent or empty message list yields the
documented no-emails message. -/
def readEmails (env : OAuthEnv) (p : ReadEmailsParams) (net : GmailNet) :
    ToolResult × Nat :=
  match createGmailAuth env with
  | .error e => ({ content := ["Error reading emails: " ++ e] }, 0)
  | .ok _ =>
      match net.listResult with
      | .error e => ({ content := ["Error reading emails: " ++ e] }, 1)
      | .ok msgsOpt =>
          let msgs := msgsOpt.getD []
          if msgs.isEmpty then
            ({ content :=
                ["# No Emails Found\n\nNo emails found matching your search criteria."] }, 1)
          else
            let refs := msgs.take p.maxResults
            match refs.mapM (fun m => net.getMeta (m.id.getD "")) with
            | .error e => ({ content := ["Error reading emails: " ++ e] }, 1 + refs.length)
            | .ok metas =>
                let emails := (refs.zip metas).map (fun pr =>
                  let headers := (pr.2.payload.bind MsgPayloadMeta.headers).getD []
                  { id := pr.1.id, threadId := pr.1.threadId
                    fromAddr := getHeader headers "From"
                    toAddr := getHeader headers "To"
                    subject := getHeader headers "Subject"
                    date := getHeader headers "Date"
                    snippet := pr.2.snippet
                    labelIds := pr.2.labelIds : EmailSummary })
                ({ content := [formatEmailListToMarkdown net.localeDate emails] },
                  1 + refs.length)

/-- The body extraction of `getEmail`: the direct body if its data is
truthy, else the first `text/plain` part with truthy data. -/
def extractEmailBody (payload : Option FullPayload) : String :=
  let direct := (payload.bind FullPayload.body).bind BodyData.data
  if jsTruthy direct then direct.getD ""
  else
    match payload.bind FullPayload.parts with
    | some parts =>
        match parts.find? (fun pt =>
            pt.mimeType == some "text/plain"
              && jsTruthy (pt.body.bind BodyData.data)) with
        | some pt => (pt.body.bind BodyData.data).getD ""
        | none => ""
    | none => ""

/-- The body bound of `getEmail` (src/unnamed/part_002, lines 491-496):
a body over 20000 characters keeps its first 20000 characters and gains
the truncation notice. -/
def truncateEmailBody (body : String) : String :=
  if 20000 < body.length then
    body.take 20000 ++ "\n\n[Email body truncated - content too long]"
  else body

/-- The record `getEmail` builds. -/
structure EmailDetail where
  id : Option String
  threadId : Option String
  fromAddr : String
  toAddr : String
  cc : String
  bcc : String
  subject : String
  date : String
  body : String
  snippet : Option String
  labelIds : Option (List String)
deriving DecidableEq, Repr

/-- The single-message renderer (`formatEmailToMarkdown`). -/
def formatEmailToMarkdown (localeDate : String → String) (email : EmailDetail) :
    String :=
  "# " ++ jsOrStr email.subject "(No Subject)" ++ "\n\n"
    ++ "From: " ++ stripAngles email.fromAddr ++ "  \n"
    ++ "To: " ++ stripAngles email.toAddr ++ "  \n"
    ++ (if email.cc != "" then "CC: " ++ stripAngles email.cc ++ "  \n" else "")
    ++ (if email.bcc != "" then "BCC: " ++ stripAngles email.bcc ++ "  \n" else "")
    ++ "Date: " ++ localeDate email.date ++ "  \n"
    ++ "Message ID: `" ++ dispStr email.id ++ "`\n\n"
    ++ (if email.body != "" then "---\n\n" ++ email.body ++ "\n" else "")

/-- `getEmail`: one full-format fetch, body extraction and truncation,
then the single-message rendering. -/
def getEmail (env : OAuthEnv) (p : GetEmailParams) (net : GmailNet) :
    ToolResult × Nat :=
  match createGmailAuth env with
  | .error e => ({ content := ["Error getting email: " ++ e] }, 0)
  | .ok _ =>
      match net.getFull with
      | .error e => ({ content := ["Error getting email: " ++ e] }, 1)
      | .ok message =>
          let headers := (message.payload.bind FullPayload.headers).getD []
          let truncatedBody := truncateEmailBody (extractEmailBody message.payload)
          ({ content := [formatEmailToMarkdown net.localeDate
              { id := message.id, threadId := message.threadId
                fromAddr := getHeader headers "From", toAddr := getHeader headers "To"
                cc := getHeader headers "Cc", bcc := getHeader headers "Bcc"
                subject := getHeader headers "Subject", date := getHeader headers "Date"
                body := truncatedBody, snippet := message.snippet
                labelIds := message.labelIds }] }, 1)

/-! ## Calendar provider (src/src/calendar.ts, lines 191-253) -/

/-- The create-event tool's parameters. -/
structure CreateEventParams where
  summary : String
  description : Option String
  location : Option String
  startDateTime : String
  endDateTime : String
  attendees : Option (List String)
  calendarId : String
  timeZone : Option String
deriving DecidableEq, Repr

/-- The subset of an inserted event echoed to the caller; the `start` and
`end` payloads are carried as uninterpreted JSON text (`end` is a Lean
keyword, so the field is named `endPayload`). -/
structure InsertedEvent where
  id : Option String
  htmlLink : Option String
  summary : Option String
  start : Option String
  endPayload : Option String
deriving DecidableEq, Repr

/-- The calendar provider boundary. -/
structure CalendarNet where
  insertResult : Except String InsertedEvent

/-- `JSON.stringify` of the success record with two-space indentation;
`undefined` members are dropped, as `JSON.stringify` drops them. -/
def createEventSuccessText (r : InsertedEvent) : String :=
  let quoted := fun (s : String) => "\"" ++ s ++ "\""
  let fields : List (String × Option String) :=
    [("eventId", r.id.map quoted), ("htmlLink", r.htmlLink.map quoted),
     ("summary", r.summary.map quoted), ("start", r.start), ("end", r.endPayload)]
  "\x7b\n  \"success\": true"
    ++ String.join (fields.filterMap (fun f =>
        f.2.map (fun v => ",\n  \"" ++ f.1 ++ "\": " ++ v)))
    ++ "\n\x7d"

/-- `createEvent`: credential failure yields an error text block before
any provider call. -/
def createEvent (env : OAuthEnv) (p : CreateEventParams) (net : CalendarNet) :
    ToolResult × Nat :=
  match createCalendarAuth env with
  | .error e => ({ content := ["Error creating event: " ++ e] }, 0)
  | .ok _ =>
      match net.insertResult with
      | .error e => ({ content := ["Error creating event: " ++ e] }, 1)
      | .ok r => ({ content := [createEventSuccessText r] }, 1)

/-- A concrete raw finance response used by witnesses: it carries both a
top-level summary record and a non-empty futures chain. -/
def financeDataBoth : FinanceData :=
  { search_metadata := none, search_parameters := none
    summary := some { title := "Apple Inc", stock := "AAPL", price := "$187.44"
                      extracted_price := some 187, currency := none, market := none }
    futures_chain := some [{ stock := "ESU5", date := "Sep 2025", price := "6000"
                             extracted_price := some 6000, currency := "USD"
                             price_movement := none, change := none }]
    top_news := none, markets := none, discover_more := none
    price_insights := none, error := none }

/-- `financeDataBoth` with the summary record removed. -/
def financeDataFuturesOnly : FinanceData :=
  { financeDataBoth with summary := none }

/-- Concrete finance parameters in summary mode (the schema defaults). -/
def financeParamsSummary : FinanceParams :=
  { q := "AAPL:NASDAQ", window := none, async := none, include_markets := false
    include_discover := false, include_news := true, max_futures := 3
    summary_only := true, max_news := 1 }

/-- Finance parameters in detailed mode. -/
def financeParamsDetailed : FinanceParams :=
  { financeParamsSummary with summary_only := false }

/-- A minimal itinerary with the given price and nothing else. -/
def flightOptionOfPrice (p : Int) : FlightOption :=
  { flights := none, layovers := none, total_duration := none, price := some p
    type := none, airline_logo := none, carbon_emissions := none }

/-- A minimal itinerary without a price. -/
def flightOptionNoPrice : FlightOption :=
  { flightOptionOfPrice 0 with price := none }

/-- A raw flight response holding only a `best_flights` list. -/
def flightDataOfBest (l : List FlightOption) : FlightData :=
  { search_metadata := none, search_parameters := none, best_flights := some l
    other_flights := none, price_insights := none, airports := none }

/-- Concrete flight parameters in summary mode (the schema defaults). -/
def flightParamsBase : FlightParams :=
  { departure_id := "SFO", arrival_id := "MSP", outbound_date := none
    return_date := none, multi_city_json := none, type := none
    max_best_flights := 3, max_other_flights := 5, include_price_insights := true
    include_airports := false, summary_only := true, include_links := false }

/-- Flight parameters in detailed mode. -/
def flightParamsDetailed : FlightParams :=
  { flightParamsBase with summary_only := false }

/-- A response with four identically-priced best flights. -/
def flightDataFour : FlightData :=
  flightDataOfBest (List.replicate 4 (flightOptionOfPrice 89))

/-- A response with five identically-priced best flights. -/
def flightDataFive : FlightData :=
  flightDataOfBest (List.replicate 5 (flightOptionOfPrice 89))

/-- Price insights whose lowest price differs from every itinerary price. -/
def flightPriceInsightsW : FlightPriceInsights :=
  { lowest_price := some 50, price_level := some "low", typical_price_range := none }

/-- A response whose only best flight carries no price while price
insights are present. -/
def flightDataNoPriceBest : FlightData :=
  { search_metadata := none, search_parameters := none
    best_flights := some [flightOptionNoPrice], other_flights := none
    price_insights := some flightPriceInsightsW, airports := none }

/-- A maps environment with the API key configured. -/
def mapsEnvWithKey : MapsEnv := { googleMapsApiKey := some "key" }

/-- A maps environment without the API key. -/
def mapsEnvNoKey : MapsEnv := { googleMapsApiKey := none }

/-- The example geocoding request of the specification. -/
def geocodeAddressParams : GeocodeParams :=
  { address := "1600 Amphitheatre Parkway, Mountain View, CA" }

/-- A complete OAuth environment. -/
def oauthEnvFull : OAuthEnv :=
  { clientId := some "id", clientSecret := some "secret", redirectUri := none
    accessToken := some "token", refreshToken := some "refresh" }

/-- `oauthEnvFull` with the access token removed. -/
def oauthEnvNoToken : OAuthEnv := { oauthEnvFull with accessToken := none }

/-- A mailbox provider boundary whose listing is empty; the other calls
are never reached by the statements that use it. -/
def gmailNetEmptyList : GmailNet :=
  { sendResult := .error "unused", listResult := .ok (some [])
    getMeta := fun _ => .error "unused", getFull := .error "unused"
    localeDate := fun s => s }

/-- The list tool's default parameters. -/
def readEmailsDefaults : ReadEmailsParams :=
  { query := none, maxResults := 10, labelIds := none }

/-- Concrete send parameters. -/
def sendParamsW : SendEmailParams :=
  { toAddr := "a@example.com", subject := "Hi", body := "Hello", cc := none
    bcc := none }

/-- Concrete get parameters. -/
def getEmailParamsW : GetEmailParams := { messageId := "m1" }

/-- Concrete create-event parameters. -/
def createEventParamsW : CreateEventParams :=
  { summary := "Meet", description := none, location := none
    startDateTime := "2025-01-15T09:00:00-07:00"
    endDateTime := "2025-01-15T10:00:00-07:00", attendees := none
    calendarId := "primary", timeZone := none }

/-- A calendar provider boundary that is never reached by the statements
that use it. -/
def calendarNetW : CalendarNet := { insertResult := .error "unused" }

/-- A concrete futures-chain entry. -/
def futureItemW : FutureItem :=
  { stock := "ESU5", date := "Sep 2025", price := "6000"
    extracted_price := some 6000, currency := "USD", price_movement := none
    change := none }

/-- A filtered finance result whose primary record lacks a price and
whose futures chain holds exactly one entry. -/
def filteredNoPricing : FilteredFinanceResult :=
  { summary := some { symbol := "ES", name := "S&P Futures", price := none
                      currency := "", price_movement := none }
    futures_chain := some [futureItemW] }

/-- C1: in summary mode the primary record is resolved deterministically,
summary record first: when `summary` is present it supplies the projected
symbol, name, price, currency and price movement (whatever
`futures_chain` holds), and only when it is absent does the head of
`futures_chain` supply them. -/
theorem finance_summary_resolution_order (data : FinanceData) (params : FinanceParams)
    (hmode : params.summary_only = true) :
    (∀ s, data.summary = some s →
      (filterFinanceResponse data params).map FilteredFinanceResult.summary
        = .ok (some (stockDataOfSummary s))) ∧
    (∀ f rest, data.summary = none → data.futures_chain = some (f :: rest) →
      (filterFinanceResponse data params).map FilteredFinanceResult.summary
        = .ok (some (stockDataOfFuture f))) := by
  constructor
  · intro s hs
    simp [filterFinanceResponse, hmode, hs, Except.map]
  · intro f rest hs hf
    simp [filterFinanceResponse, hmode, hs, hf, Except.map]

/-- Witness for C1: a response carrying both a summary record and a
futures chain projects the summary record; with the summary removed the
same response projects the first futures-chain entry. -/
theorem finance_summary_resolution_order_witness :
    ((filterFinanceResponse financeDataBoth financeParamsSummary).map
        FilteredFinanceResult.summary
      = .ok (some { symbol := "AAPL", name := "Apple Inc", price := some 187
                    currency := "$", price_movement := none })) ∧
    ((filterFinanceResponse financeDataFuturesOnly financeParamsSummary).map
        FilteredFinanceResult.summary
      = .ok (some { symbol := "ESU5", name := "Sep 2025", price := some 6000
                    currency := "USD", price_movement := none })) := by
  constructor
  · exact ((finance_summary_resolution_order financeDataBoth financeParamsSummary
      rfl).1 _ rfl).trans rfl
  · exact ((finance_summary_resolution_order financeDataFuturesOnly financeParamsSummary
      rfl).2 _ _ rfl rfl).trans rfl

/-- C2 counterexample: the detailed projection drops the summary block
entirely, and with the itinerary lists truncated the summary's flight
count is not even recoverable: two responses (four and five best
flights) have identical detailed projections but different summary
projections. -/
theorem flight_projection_subset_counterexample :
    filterFlightResponse flightDataFour flightParamsDetailed
      = filterFlightResponse flightDataFive flightParamsDetailed
    ∧ (filterFlightResponse flightDataFour flightParamsBase).summary
      ≠ (filterFlightResponse flightDataFive flightParamsBase).summary
    ∧ (filterFlightResponse flightDataFour flightParamsDetailed).summary = none :=
  ⟨by decide, by decide, by decide⟩

/-- C2 (amended): summary-mode flight projections never carry the
detailed `best_flights`/`other_flights` lists, and the detailed
projection never carries the summary block (route, best price, flight
count). -/
theorem flight_projection_mode_fields (data : FlightData) (p : FlightParams) :
    (filterFlightResponse data { p with summary_only := true }).best_flights = none
    ∧ (filterFlightResponse data { p with summary_only := true }).other_flights = none
    ∧ (filterFlightResponse data { p with summary_only := false }).summary = none := by
  refine ⟨?_, ?_, ?_⟩ <;> simp [filterFlightResponse]

/-- For a non-negative bound, `slice(0, e)` is `take`. -/
theorem jsSlice_of_nonneg {α : Type _} (l : List α) (e : Int) (h : 0 ≤ e) :
    jsSlice l e = l.take e.toNat := by
  simp [jsSlice, h]

/-- Slicing to `N` is taking the first `N` of slicing to `N + 1`. -/
theorem jsSliceTakeSucc {α : Type _} (l : List α) (N : Int) (h : 1 ≤ N) :
    jsSlice l N = (jsSlice l (N + 1)).take N.toNat := by
  rw [jsSlice_of_nonneg l N (by omega), jsSlice_of_nonneg l (N + 1) (by omega),
    List.take_take]
  congr 1
  omega

/-- `jsSliceTakeSucc` under a per-item map. -/
theorem jsSliceMapTakeSucc {α β : Type _} (l : List α) (f : α → β) (N : Int)
    (h : 1 ≤ N) :
    (jsSlice l N).map f = ((jsSlice l (N + 1)).map f).take N.toNat := by
  rw [jsSliceTakeSucc l N h, List.map_take]

/-- C3: for every list-valued field (best flights, other flights, futures
chain) and every positive max-count `N`, projecting with `max = N` equals
taking the first `N` items of projecting with `max = N + 1`, and the
projection is a pure function of its inputs (repeating it changes
nothing). -/
theorem truncation_prefix_stable (fd : FlightData) (fp : FlightParams)
    (gd : FinanceData) (gp : FinanceParams) (N : Int) (hN : 1 ≤ N) :
    (filterFlightResponse fd
        { fp with summary_only := false, max_best_flights := N }).best_flights
      = Option.map (List.take N.toNat)
          (filterFlightResponse fd
            { fp with summary_only := false, max_best_flights := N + 1 }).best_flights
    ∧ (filterFlightResponse fd
        { fp with summary_only := false, max_other_flights := N }).other_flights
      = Option.map (List.take N.toNat)
          (filterFlightResponse fd
            { fp with summary_only := false, max_other_flights := N + 1 }).other_flights
    ∧ (filterFinanceResponse gd
        { gp with summary_only := false, max_futures := N }).map
          FilteredFinanceResult.futures_chain
      = (filterFinanceResponse gd
          { gp with summary_only := false, max_futures := N + 1 }).map
          (fun r => Option.map (List.take N.toNat) r.futures_chain)
    ∧ filterFlightResponse fd { fp with summary_only := false, max_best_flights := N }
      = filterFlightResponse fd { fp with summary_only := false, max_best_flights := N } := by
  have h0 : (0 : Int) < N := by omega
  have h1 : (0 : Int) < N + 1 := by omega
  refine ⟨?_, ?_, ?_, rfl⟩
  · cases hb : fd.best_flights with
    | none => simp [filterFlightResponse, hb]
    | some l =>
        simp [filterFlightResponse, hb, h0, h1,
          jsSliceMapTakeSucc l projBestFlight N hN]
  · cases hb : fd.other_flights with
    | none => simp [filterFlightResponse, hb]
    | some l =>
        simp [filterFlightResponse, hb, h0, h1,
          jsSliceMapTakeSucc l projOtherFlight N hN]
  · cases hb : gd.futures_chain with
    | none => simp [filterFinanceResponse, hb, Except.map]
    | some l =>
        simp [filterFinanceResponse, hb, h0, h1, Except.map, jsSliceTakeSucc l N hN]

/-- Witness for C3 at `N = 1` on concrete four-flight data. -/
theorem truncation_prefix_stable_witness :
    (1 : Int) ≤ 1
    ∧ ((filterFlightResponse flightDataFour
          { flightParamsBase with summary_only := false, max_best_flights := (1 : Int) }).best_flights
        = Option.map (List.take (1 : Int).toNat)
            (filterFlightResponse flightDataFour
              { flightParamsBase with
                summary_only := false
                max_best_flights := (1 : Int) + 1 }).best_flights
      ∧ (filterFlightResponse flightDataFour
          { flightParamsBase with summary_only := false, max_other_flights := (1 : Int) }).other_flights
        = Option.map (List.take (1 : Int).toNat)
            (filterFlightResponse flightDataFour
              { flightParamsBase with
                summary_only := false
                max_other_flights := (1 : Int) + 1 }).other_flights
      ∧ (filterFinanceResponse financeDataBoth
          { financeParamsSummary with summary_only := false, max_futures := (1 : Int) }).map
            FilteredFinanceResult.futures_chain
        = (filterFinanceResponse financeDataBoth
            { financeParamsSummary with summary_only := false, max_futures := (1 : Int) + 1 }).map
            (fun r => Option.map (List.take (1 : Int).toNat) r.futures_chain)
      ∧ filterFlightResponse flightDataFour
          { flightParamsBase with summary_only := false, max_best_flights := (1 : Int) }
        = filterFlightResponse flightDataFour
            { flightParamsBase with summary_only := false, max_best_flights := (1 : Int) }) :=
  ⟨by norm_num,
    truncation_prefix_stable flightDataFour flightParamsBase financeDataBoth
      financeParamsSummary 1 (by norm_num)⟩

/-- C4: a successful provider call with zero usable records yields exactly
the documented no-results text and nothing else: geocoding with zero
results yields the single block `No results found for the given address.`,
and the mailbox list tool with an empty message list yields its documented
no-emails message. -/
theorem empty_results_messages (env : MapsEnv) (gp : GeocodeParams)
    (oenv : OAuthEnv) (rp : ReadEmailsParams) (net : GmailNet)
    (hkey : jsTruthy env.googleMapsApiKey = true)
    (hlist : net.listResult = .ok (some []))
    (hc1 : jsTruthy oenv.clientId = true) (hc2 : jsTruthy oenv.clientSecret = true)
    (hc3 : jsTruthy oenv.accessToken = true) (hc4 : jsTruthy oenv.refreshToken = true) :
    geocode env gp (.ok { results := [] })
      = .ok { content := ["No results found for the given address."] }
    ∧ (readEmails oenv rp net).1
      = { content :=
          ["# No Emails Found\n\nNo emails found matching your search criteria."] } := by
  constructor
  · simp [geocode, hkey]
  · simp [readEmails, createGmailAuth, hc1, hc2, hc3, hc4, hlist]

/-- Witness for C4 with a configured environment and an empty listing. -/
theorem empty_results_messages_witness :
    geocode mapsEnvWithKey geocodeAddressParams (.ok { results := [] })
      = .ok { content := ["No results found for the given address."] }
    ∧ (readEmails oauthEnvFull readEmailsDefaults gmailNetEmptyList).1
      = { content :=
          ["# No Emails Found\n\nNo emails found matching your search criteria."] } :=
  empty_results_messages mapsEnvWithKey geocodeAddressParams oauthEnvFull
    readEmailsDefaults gmailNetEmptyList rfl rfl rfl rfl rfl rfl

/-- C5: the renderers are deterministic: equal filtered data, parameters
and fetched news always render byte-identical documents (the embedding is
a pure function of exactly these inputs; no clock or randomness occurs in
the source of either renderer). -/
theorem render_deterministic (fd fd' : Option FilteredFinanceResult)
    (fp fp' : FinanceParams) (bn bn' : List BraveNewsResult)
    (gd gd' : Option FlightData) (gp gp' : FlightParams)
    (h1 : fd = fd') (h2 : fp = fp') (h3 : bn = bn') (h4 : gd = gd') (h5 : gp = gp') :
    formatFinanceToMarkdown fd fp bn = formatFinanceToMarkdown fd' fp' bn'
    ∧ formatFlightToMarkdown gd gp = formatFlightToMarkdown gd' gp' := by
  subst h1; subst h2; subst h3; subst h4; subst h5
  exact ⟨rfl, rfl⟩

/-- Witness for C5 at concrete inputs. -/
theorem render_deterministic_witness :
    formatFinanceToMarkdown (some filteredNoPricing) financeParamsSummary []
      = formatFinanceToMarkdown (some filteredNoPricing) financeParamsSummary []
    ∧ formatFlightToMarkdown (some flightDataFour) flightParamsBase
      = formatFlightToMarkdown (some flightDataFour) flightParamsBase :=
  render_deterministic (some filteredNoPricing) (some filteredNoPricing)
    financeParamsSummary financeParamsSummary [] [] (some flightDataFour)
    (some flightDataFour) flightParamsBase flightParamsBase rfl rfl rfl rfl rfl

/-- C6: when any of the four OAuth credential fields is absent, both
credential resolvers fail, and every modelled mailbox and calendar
invocation performs zero provider calls. -/
theorem auth_missing_credential_no_network (env : OAuthEnv)
    (sp : SendEmailParams) (rp : ReadEmailsParams) (ep : GetEmailParams)
    (cp : CreateEventParams) (gnet : GmailNet) (cnet : CalendarNet)
    (h : env.clientId = none ∨ env.clientSecret = none
      ∨ env.accessToken = none ∨ env.refreshToken = none) :
    (∃ e, createGmailAuth env = .error e)
    ∧ (∃ e, createCalendarAuth env = .error e)
    ∧ (sendEmail env sp gnet).2 = 0
    ∧ (readEmails env rp gnet).2 = 0
    ∧ (getEmail env ep gnet).2 = 0
    ∧ (createEvent env cp cnet).2 = 0 := by
  have hg : ∃ e, createGmailAuth env = .error e := by
    unfold createGmailAuth
    rcases h with h | h | h | h <;> simp [h, jsTruthy] <;> split <;> simp
  have hcal : ∃ e, createCalendarAuth env = .error e := by
    unfold createCalendarAuth
    rcases h with h | h | h | h <;> simp [h, jsTruthy] <;> split <;> simp
  obtain ⟨e1, he1⟩ := hg
  obtain ⟨e2, he2⟩ := hcal
  exact ⟨⟨e1, he1⟩, ⟨e2, he2⟩, by simp [sendEmail, he1], by simp [readEmails, he1],
    by simp [getEmail, he1], by simp [createEvent, he2]⟩

/-- Witness for C6: an environment missing only the access token. -/
theorem auth_missing_credential_no_network_witness :
    (∃ e, createGmailAuth oauthEnvNoToken = .error e)
    ∧ (∃ e, createCalendarAuth oauthEnvNoToken = .error e)
    ∧ (sendEmail oauthEnvNoToken sendParamsW gmailNetEmptyList).2 = 0
    ∧ (readEmails oauthEnvNoToken readEmailsDefaults gmailNetEmptyList).2 = 0
    ∧ (getEmail oauthEnvNoToken getEmailParamsW gmailNetEmptyList).2 = 0
    ∧ (createEvent oauthEnvNoToken createEventParamsW calendarNetW).2 = 0 :=
  auth_missing_credential_no_network oauthEnvNoToken sendParamsW readEmailsDefaults
    getEmailParamsW createEventParamsW gmailNetEmptyList calendarNetW
    (Or.inr (Or.inr (Or.inl rfl)))

/-- C7 counterexample: with the maps key missing, `geocode` does not
return an error text block; it propagates a thrown error out of the
handler. -/
theorem geocode_missing_key_counterexample :
    geocode mapsEnvNoKey geocodeAddressParams (.ok { results := [] })
      = .error "GOOGLE_MAPS_API_KEY is required"
    ∧ (geocode mapsEnvNoKey geocodeAddressParams (.ok { results := [] })).isOk = false :=
  ⟨rfl, rfl⟩

/-- C7 (amended): with a required key or token missing, the mailbox and
calendar tools return a tool-level error text block, while the
geospatial, quote and flight handlers throw the missing-key error out of
the handler (left to the surrounding MCP framework). -/
theorem missing_key_error_surface (mp : GeocodeParams)
    (call : Except String GeocodeResponse) (fp : FinanceParams)
    (fcall : Except String FinanceData) (bn : List BraveNewsResult)
    (ap : FlightParams) (acall : Except String FlightData) (env : OAuthEnv)
    (sp : SendEmailParams) (cp : CreateEventParams) (gnet : GmailNet)
    (cnet : CalendarNet) :
    geocode { googleMapsApiKey := none } mp call
      = .error "GOOGLE_MAPS_API_KEY is required"
    ∧ searchFinance none fp fcall bn
      = .error "SERP_API_KEY environment variable is required"
    ∧ searchAirports none ap acall
      = .error "SERP_API_KEY environment variable is required"
    ∧ (env.clientId = none →
        (sendEmail env sp gnet).1.content
          = ["Error sending email: GOOGLE_CLIENT_ID and GOOGLE_CLIENT_SECRET are required. Run oauth-setup.js to configure."]
        ∧ (createEvent env cp cnet).1.content
          = ["Error creating event: GOOGLE_CLIENT_ID and GOOGLE_CLIENT_SECRET are required. Run oauth-setup.js to configure."]) := by
  refine ⟨rfl, rfl, rfl, fun h => ?_⟩
  constructor
  · simp [sendEmail, createGmailAuth, h, jsTruthy]
  · simp [createEvent, createCalendarAuth, h, jsTruthy]

/-- C8 counterexample: a primary record without a price renders the
placeholder `Current Price: $N/A`, and a present one-entry futures chain
yields no `## Futures Contracts` section in summary mode. -/
theorem finance_render_placeholder_counterexample :
    strContains (formatFinanceToMarkdown (some filteredNoPricing) financeParamsSummary [])
      "Current Price: $N/A" = true
    ∧ strContains (formatFinanceToMarkdown (some filteredNoPricing) financeParamsSummary [])
      "## Futures Contracts" = false
    ∧ filteredNoPricing.futures_chain = some [futureItemW]
    ∧ filteredNoPricing.summary.isSome = true
    ∧ financeParamsSummary.summary_only = true :=
  ⟨by decide, by decide, rfl, rfl, rfl⟩

/-- C8 (amended): for the quote renderer, the Futures Contracts section
appears exactly when a futures list is present in summary mode and more
than one item survives truncation; the Price Analysis section appears
exactly when price insights are present; and a missing price renders as
the `N/A` placeholder after the currency symbol rather than being
omitted. -/
theorem finance_section_presence (d : FilteredFinanceResult) (p : FinanceParams) :
    (∀ fc, d.futures_chain = some fc → p.summary_only = true → 0 < fc.length →
      1 < (jsSlice fc (jsOrInt p.max_futures 3)).length →
      ∃ body, futuresSection d p = "## Futures Contracts\n\n" ++ body)
    ∧ (∀ fc, d.futures_chain = some fc →
        ¬(p.summary_only = true ∧ 0 < fc.length
          ∧ 1 < (jsSlice fc (jsOrInt p.max_futures 3)).length) →
        futuresSection d p = "")
    ∧ (d.futures_chain = none → futuresSection d p = "")
    ∧ (d.price_insights = none → priceInsightsSection d = "")
    ∧ (∀ ins, d.price_insights = some ins →
        ∃ body, priceInsightsSection d = "## Price Analysis\n\n" ++ body)
    ∧ (∀ s, d.summary = some s → s.price = none →
        currentPriceLine s = "Current Price: " ++ jsOrStr s.currency "$" ++ "N/A" ++ "  \n") := by
  refine ⟨?_, ?_, ?_, ?_, ?_, ?_⟩
  · intro fc hfc hsum hlen hslice
    refine ⟨futuresRows (jsSlice fc (jsOrInt p.max_futures 3)), ?_⟩
    simp [futuresSection, hfc, hsum, hlen, hslice]
  · intro fc hfc hn
    cases hsum : p.summary_only with
    | false => simp [futuresSection, hfc, hsum]
    | true =>
        by_cases h2 : 0 < fc.length
        · by_cases h3 : 1 < (jsSlice fc (jsOrInt p.max_futures 3)).length
          · exact absurd ⟨hsum, h2, h3⟩ hn
          · simp [futuresSection, hfc, hsum, h2, h3]
        · simp [futuresSection, hfc, hsum, h2]
  · intro hfc
    simp [futuresSection, hfc]
  · intro hpi
    simp [priceInsightsSection, hpi]
  · intro ins hins
    refine ⟨priceInsightsRows ins, ?_⟩
    simp [priceInsightsSection, hins]
  · intro s hs hp
    simp [currentPriceLine, hp]

/-- C9 counterexample: the headline price falls back to
`price_insights.lowest_price` although a `best_flights` entry is present
(its price is merely missing). -/
theorem flight_headline_price_counterexample :
    strContains (formatFlightToMarkdown (some flightDataNoPriceBest) flightParamsBase)
      "**Best Price**: $50" = true
    ∧ flightDataNoPriceBest.best_flights = some [flightOptionNoPrice]
    ∧ flightParamsBase.summary_only = true :=
  ⟨by decide, rfl, rfl⟩

/-- C9 (amended): in summary mode a first best flight priced 89 puts
`$89` in the headline Best Price line straight after the title,
regardless of `price_insights.lowest_price`; the lowest price supplies
the headline when `best_flights` is absent or empty, or when its first
entry's price is missing or zero. -/
theorem flight_headline_price (d : FlightData) (p : FlightParams) :
    (∀ fl rest, p.summary_only = true → d.best_flights = some (fl :: rest) →
      fl.price = some 89 →
      ∃ s, formatFlightToMarkdown (some d) p
        = flightTitle p ++ (bestPriceLine (some 89) ++ s))
    ∧ bestPriceLine (some 89) = "**Best Price**: $89\n"
    ∧ (∀ fl rest, p.summary_only = true → d.best_flights = some (fl :: rest) →
        (fl.price = none ∨ fl.price = some 0) →
        ∃ s, formatFlightToMarkdown (some d) p
          = flightTitle p
            ++ (bestPriceLine (d.price_insights.bind FlightPriceInsights.lowest_price) ++ s))
    ∧ (p.summary_only = true → (d.best_flights = none ∨ d.best_flights = some []) →
        ∃ s, formatFlightToMarkdown (some d) p
          = flightTitle p
            ++ (bestPriceLine (d.price_insights.bind FlightPriceInsights.lowest_price) ++ s)) := by
  refine ⟨?_, rfl, ?_, ?_⟩
  · intro fl rest hsum hbf hp
    refine ⟨flightSummaryTail d p, ?_⟩
    simp [formatFlightToMarkdown, flightSummaryBody, hsum, hbf, hp, jsOrNumOpt]
  · intro fl rest hsum hbf hp
    refine ⟨flightSummaryTail d p, ?_⟩
    rcases hp with hp | hp <;>
      simp [formatFlightToMarkdown, flightSummaryBody, hsum, hbf, hp, jsOrNumOpt]
  · intro hsum hbf
    refine ⟨flightSummaryTail d p, ?_⟩
    rcases hbf with hbf | hbf <;>
      simp [formatFlightToMarkdown, flightSummaryBody, hsum, hbf, jsOrNumOpt]

/-- C10: the extracted email body is bounded: a body of at most 20000
characters passes through `getEmail`'s truncation unchanged, and a longer
one is replaced by its first 20000 characters followed by the truncation
notice. -/
theorem email_body_truncation (body : String) :
    (body.length ≤ 20000 → truncateEmailBody body = body)
    ∧ (20000 < body.length →
        truncateEmailBody body
          = body.take 20000 ++ "\n\n[Email body truncated - content too long]") := by
  constructor
  · intro h
    unfold truncateEmailBody
    rw [if_neg (by omega)]
  · intro h
    unfold truncateEmailBody
    rw [if_pos h]
